import Mathlib

/-!
Shallow embedding of the two/three-period comparison engine of
`src/main.py` (class `PeriodComparison`), together with theorems settling
the specification claims about it.

Modelling conventions:
* `value` cells (floats in the source) are modelled as `Int`; the claims
  under study only add, subtract, sum and compare values.
* `tab_number` cells are modelled as `Nat`.  In the source a validated
  tab number is converted to an 8-character zero-padded string at load
  time (`main.py:258`) and back to `int` when the registry is built
  (`main.py:395`); this round trip is the identity on the numeric value
  for validated numbers (which are at most 99 999 999), so the `Nat`
  model is faithful.
* pandas data frames become `List`s of records; `groupby(...).agg` with
  `first`/`sum` becomes key-deduplication plus `filter`/`map`/`sum`.
-/

namespace PeriodCompare

/-- One record of a loaded period data frame, after the load-time
validation of `load_excel_file` (`main.py:205-297`): `tab_number`
validated by `_validate_tab_number`, `value` by `_validate_value`. -/
structure RawRecord where
  client_id : String
  tab_number : Nat
  fio : String
  tb : String
  gosb : String
  client_name : String
  value : Int
deriving DecidableEq, Repr

/-- The per-period slice of a registry row: the columns
`tab_number_period_i`, `fio_period_i`, `tb_period_i`, `gosb_period_i`,
`client_name_period_i`, `value_period_i` of `clients_base`
(`main.py:344-400`). -/
structure PeriodSlot where
  tab_number : Nat
  fio : String
  tb : String
  gosb : String
  client_name : String
  value : Int
deriving DecidableEq, Repr

/-- A row of the `clients_base` registry (`main.py:323-483`): one row per
client aggregation key, with per-period slices, the resolved `final_*`
columns and the `growth` column (0 until `calculate_growth` runs). -/
structure ClientRow where
  client_key : String
  periods : List PeriodSlot
  final_tab_number : Nat
  final_fio : String
  final_tb : String
  final_gosb : String
  growth : Int
deriving DecidableEq, Repr

/-- The empty period slice used where the left join of
`create_clients_base` found no record for a key
(`fillna` defaults, `main.py:393-400`). -/
def emptySlot : PeriodSlot :=
  { tab_number := 0, fio := "", tb := "", gosb := "", client_name := "", value := 0 }

/-- `value_period_i` of a registry row (1-based period index, absent
periods read as the fill value 0). -/
def valueAt (r : ClientRow) (i : Nat) : Int :=
  (r.periods.getD (i - 1) emptySlot).value

/-- Left zero-padding of a digit string, as Python `str.zfill`. -/
def zfill (s : String) (w : Nat) : String :=
  String.mk (List.replicate (w - s.length) '0') ++ s

/-- The apostrophe character, stripped from identifiers at load time. -/
def apostropheChar : Char := Char.ofNat 39

/-- Removal of apostrophes, as `str.replace("'", "")` in
`_validate_tab_number` (`main.py:113`). -/
def removeApostrophes (s : String) : String :=
  String.mk (s.data.filter (fun c => c ≠ apostropheChar))

/-- ASCII lower-casing of one character (Python `str.lower` on the
identifiers handled here). -/
def charLower (c : Char) : Char :=
  if 65 ≤ c.toNat ∧ c.toNat ≤ 90 then Char.ofNat (c.toNat + 32) else c

/-- Python `str.lower()` over the character data. -/
def strToLower (s : String) : String :=
  String.mk (s.data.map charLower)

/-- Whitespace recognition for Python `str.strip()`. -/
def isPySpace (c : Char) : Bool :=
  c.toNat = 32 ∨ c.toNat = 9 ∨ c.toNat = 10 ∨ c.toNat = 13

/-- Python `str.strip()` over the character data. -/
def strTrim (s : String) : String :=
  String.mk (((s.data.dropWhile isPySpace).reverse.dropWhile isPySpace).reverse)

/-- Decimal digit value of one character. -/
def digitVal (c : Char) : Option Nat :=
  if 48 ≤ c.toNat ∧ c.toNat ≤ 57 then some (c.toNat - 48) else none

/-- Decimal parse of a character list, `none` unless every character is
a digit and the list is non-empty. -/
def parseDigits : List Char → Nat → Option Nat
  | [], acc => some acc
  | c :: cs, acc =>
      match digitVal c with
      | some d => parseDigits cs (acc * 10 + d)
      | none => none

/-- Parse of a non-negative decimal integer string (the digit-string
case of Python `int(...)`/`float(...).is_integer()`). -/
def strToNat (s : String) : Option Nat :=
  match s.data with
  | [] => none
  | cs => parseDigits cs 0

/-- The part of a string before the first underscore: Python
`x.split('_')[0]` (which is `x` itself when no underscore occurs). -/
def firstComponent (s : String) : String :=
  String.mk (s.data.takeWhile (fun ch => ch ≠ '_'))

/-- `PeriodComparison._validate_tab_number` (`main.py:99-142`).
Maps an input cell (already rendered to a string, as `str(value)` does)
to a validated tab number: explicit grey-zone markers become 90 000 000,
blank or unparsable values become 70 000 000, values longer than 8
digits become 70 000 000, and decimal digit strings parse to their
value.  The source parses numbers with Python `float(...)` and accepts a
value only when it `is_integer()` and is non-negative; on decimal
integer literals that parse agrees with `strToNat`, which is used
here (scientific notation such as `1e3`, which `float` also accepts, is
not modelled; no claim depends on it). -/
def _validate_tab_number (value : String) : Nat :=
  let str_value := removeApostrophes (strTrim value)
  if strToLower str_value = "grey_zone" ∨ strToLower str_value = "grey zone" ∨
      strToLower str_value = "greyzone" then
    90000000
  else if str_value = "-" ∨ str_value = "" ∨ str_value = "nan" ∨
      str_value = "None" ∨ str_value = "null" then
    70000000
  else
    match strToNat str_value with
    | some tab_number => if tab_number > 99999999 then 70000000 else tab_number
    | none => 70000000

/-- `PeriodComparison._is_excluded_tab_number` (`main.py:144-165`):
true when the 8-digit zero-padded rendering of the tab number starts
with the digit 8 or 9, except for 0 and for the grey-zone sentinel
90 000 000, which are explicitly not excluded. -/
def _is_excluded_tab_number (tab_number : Nat) : Bool :=
  if tab_number = 0 ∨ tab_number = 90000000 then false
  else
    let tab_str := zfill (toString tab_number) 8
    if tab_str.length = 8 then
      match tab_str.data with
      | c :: _ => c = '8' ∨ c = '9'
      | [] => false
    else false

/-- `PeriodComparison._check_manager_client_match` (`main.py:1202-1225`):
the aggregation-consistency check of a candidate period against the
row's current `final_tb`/`final_gosb` fields. -/
def _check_manager_client_match (p : PeriodSlot) (mode : Nat)
    (final_tb final_gosb : String) : Bool :=
  if mode = 1 then true
  else if mode = 2 then p.tb = final_tb
  else if mode = 3 then p.tb = final_tb ∧ p.gosb = final_gosb
  else true

/-- The manager scan of `create_clients_base` (`main.py:428-442` and the
fallback at `main.py:450-461`): a left-to-right pass over the periods
keeping the latest candidate whose tab number is nonzero, whose value
strictly exceeds the best value so far (initially 0), and which passes
the eligibility test. -/
def scanManager (eligible : PeriodSlot → Bool) :
    List PeriodSlot → Option PeriodSlot × Int → Option PeriodSlot × Int
  | [], acc => acc
  | p :: ps, acc =>
      scanManager eligible ps
        (if p.tab_number ≠ 0 ∧ acc.2 < p.value then
          if eligible p then (some p, p.value) else acc
        else acc)

/-- Eligibility used by the primary scan (`main.py:432-442`): the
aggregation-consistency check plus the exclusion check. -/
def eligPrimary (mode : Nat) (final_tb final_gosb : String)
    (p : PeriodSlot) : Bool :=
  _check_manager_client_match p mode final_tb final_gosb &&
    !(_is_excluded_tab_number p.tab_number)

/-- The primary manager selection of `create_clients_base`
(`main.py:428-442`): best value among nonzero, consistency-passing,
non-excluded candidates. -/
def selectBestManager (mode : Nat) (final_tb final_gosb : String)
    (ps : List PeriodSlot) : Option PeriodSlot :=
  (scanManager (eligPrimary mode final_tb final_gosb) ps (none, 0)).1

/-- The fallback manager selection of `create_clients_base`
(`main.py:450-461`): the same scan without the exclusion check. -/
def selectFallbackManager (mode : Nat) (final_tb final_gosb : String)
    (ps : List PeriodSlot) : Option PeriodSlot :=
  (scanManager (fun p => _check_manager_client_match p mode final_tb final_gosb)
    ps (none, 0)).1

/-- The resolved `final_*` columns of one registry row. -/
structure FinalFields where
  final_tab_number : Nat
  final_fio : String
  final_tb : String
  final_gosb : String
deriving DecidableEq, Repr

/-- Manager resolution for one registry row (`main.py:412-467`): the
`final_*` columns are initialised to `0`/`""` (`main.py:413-416`), so
the consistency check runs against the empty string; the primary scan
is tried first, then the fallback scan without the exclusion check, and
if both fail the row keeps final tab number 0. -/
def resolveFinal (mode : Nat) (ps : List PeriodSlot) : FinalFields :=
  match selectBestManager mode "" "" ps with
  | some p => ⟨p.tab_number, p.fio, p.tb, p.gosb⟩
  | none =>
    match selectFallbackManager mode "" "" ps with
    | some p => ⟨p.tab_number, p.fio, p.tb, p.gosb⟩
    | none => ⟨0, "", "", ""⟩

/-- First-occurrence deduplication with an accumulator of already-seen
keys; models iteration order of a Python `set`/`dict` built by
insertion (`all_client_keys`, `managers_data`). -/
def dedupFirstAux [DecidableEq κ] : List κ → List κ → List κ
  | [], _ => []
  | k :: ks, seen =>
      if k ∈ seen then dedupFirstAux ks seen
      else k :: dedupFirstAux ks (k :: seen)

/-- The distinct elements of a list, in order of first occurrence. -/
def dedupFirst [DecidableEq κ] (l : List κ) : List κ :=
  dedupFirstAux l []

/-- `PeriodComparison._get_client_aggregation_key` (`main.py:1042-1065`). -/
def clientAggregationKey (mode : Nat) (r : RawRecord) : String :=
  if mode = 1 then r.client_id
  else if mode = 2 then r.client_id ++ "_" ++ r.tb
  else if mode = 3 then r.client_id ++ "_" ++ r.tb ++ "_" ++ r.gosb
  else r.client_id

/-- The union of client aggregation keys over all periods
(`main.py:334-341`). -/
def clientKeys (mode : Nat) (frames : List (List RawRecord)) : List String :=
  dedupFirst ((frames.map (fun f => f.map (clientAggregationKey mode))).flatten)

/-- The grouped period data of one key in one frame
(`main.py:348-391`): descriptive fields from the first record with the
key, value summed over all records with the key; the left-join/fillna
defaults of `main.py:393-400` when the key is absent from a (non-empty)
frame.  Note: when an *entire* period frame is empty the source aborts
instead — `pd.DataFrame([])` has no columns, so
`.groupby('client_key')` at `main.py:364-365` raises a `KeyError`
before any registry is produced.  The embedding covers the runs in
which every period frame holds at least one record (as every concrete
input below does); the per-key empty-group case modelled here is only
the ordinary left-join miss inside such a run. -/
def buildPeriodSlot (mode : Nat) (k : String) (frame : List RawRecord) :
    PeriodSlot :=
  let grp := frame.filter (fun r => clientAggregationKey mode r = k)
  match grp with
  | [] => emptySlot
  | r :: _ =>
      { tab_number := r.tab_number, fio := r.fio, tb := r.tb, gosb := r.gosb,
        client_name := r.client_name,
        value := (grp.map (fun x => x.value)).sum }

/-- The per-period sentinel normalisation of `main.py:402-410`: a period
carrying tab number 70 000 000 or 90 000 000 has its `tb`/`gosb`
cleared to the placeholder. -/
def clearSentinelSlot (s : PeriodSlot) : PeriodSlot :=
  if s.tab_number = 70000000 ∨ s.tab_number = 90000000 then
    { s with tb := "-", gosb := "-" }
  else s

/-- One resolved registry row for a client key (`main.py:344-467`). -/
def mkClientRow (mode : Nat) (frames : List (List RawRecord)) (k : String) :
    ClientRow :=
  let periods := (frames.map (buildPeriodSlot mode k)).map clearSentinelSlot
  let fin := resolveFinal mode periods
  { client_key := k, periods := periods,
    final_tab_number := fin.final_tab_number, final_fio := fin.final_fio,
    final_tb := fin.final_tb, final_gosb := fin.final_gosb, growth := 0 }

/-- The registry after the union/join and manager resolution, before
special-zone processing (`main.py:334-467`). -/
def buildResolvedRows (mode : Nat) (frames : List (List RawRecord)) :
    List ClientRow :=
  (clientKeys mode frames).map (mkClientRow mode frames)

/-- One branch entry of the `TB_GOSB_CODES` reference directory (imported
by `main.py` from the configuration; external static data). -/
structure TbInfo where
  code : Nat
  short_name : String
  full_name : String
deriving DecidableEq, Repr

/-- The branch/sub-branch code directory: branch entries plus
`(branch code, sub-branch code) ↦ sub-branch name` entries. -/
structure CodeDirectory where
  tb_codes : List TbInfo
  gosb_codes : List ((Nat × Nat) × String)
deriving DecidableEq, Repr

/-- Python's `int(name) == code` probe used by the directory lookups:
true when the name parses as the given number (`try`/`except` around
`int(...)` in `main.py:1110-1114`). -/
def numericNameMatch (name : String) (code : Nat) : Bool :=
  match strToNat name with
  | some n => n == code
  | none => false

/-- The scan of `_get_tb_code_from_name` over the directory entries
(`main.py:1106-1127`): per entry, numeric match first, then short name,
then full name, then substring of the full name. -/
def tbCodeScan (name : String) : List TbInfo → Nat
  | [] => 0
  | t :: ts =>
      if numericNameMatch name t.code then t.code
      else if name = t.short_name then t.code
      else if name = t.full_name then t.code
      else if t.full_name ≠ "" ∧ name.data <:+: t.full_name.data then
        t.code
      else tbCodeScan name ts

/-- `PeriodComparison._get_tb_code_from_name` (`main.py:1092-1127`). -/
def _get_tb_code_from_name (dir : CodeDirectory) (tb_name : String) : Nat :=
  if tb_name = "" ∨ tb_name = "-" then 0
  else tbCodeScan tb_name dir.tb_codes

/-- The scan of `_get_gosb_code_from_name` over directory entries with
the given branch code (`main.py:1142-1160`): numeric match, then exact
name match, then the partial match `gosb_name in name` of
`main.py:1157` — the argument contained in the directory name. -/
def gosbCodeScan (gosb_name : String) (tb_code : Nat) :
    List ((Nat × Nat) × String) → Nat
  | [] => 0
  | e :: es =>
      if e.1.1 = tb_code then
        if numericNameMatch gosb_name e.1.2 then e.1.2
        else if gosb_name = e.2 then e.1.2
        else if gosb_name.data <:+: e.2.data then e.1.2
        else gosbCodeScan gosb_name tb_code es
      else gosbCodeScan gosb_name tb_code es

/-- `PeriodComparison._get_gosb_code_from_name` (`main.py:1129-1161`). -/
def _get_gosb_code_from_name (dir : CodeDirectory) (gosb_name : String)
    (tb_code : Nat) : Nat :=
  if gosb_name = "" ∨ gosb_name = "-" then 0
  else gosbCodeScan gosb_name tb_code dir.gosb_codes

/-- Short name of a branch code in the directory
(`self.tb_gosb_codes['tb_codes'][tb_code]['short_name']`). -/
def tbShortName (dir : CodeDirectory) (tb_code : Nat) : String :=
  ((dir.tb_codes.find? (fun t => t.code == tb_code)).map
    (fun t => t.short_name)).getD ""

/-- Sub-branch name of a `(branch, sub-branch)` code pair in the
directory (`self.tb_gosb_codes['gosb_codes'][(tb_code, gosb_code)]`). -/
def gosbName (dir : CodeDirectory) (tb_code gosb_code : Nat) : String :=
  ((dir.gosb_codes.find? (fun e => e.1 == (tb_code, gosb_code))).map
    (fun e => e.2)).getD ""

/-- Insertion-ordered association list update: append the row to the
group of its key, creating the group at the end when new (models the
Python dicts `tb_groups`/`gosb_groups`, `main.py:1261-1282`). -/
def addToGroup [DecidableEq κ] (groups : List (κ × List ClientRow)) (k : κ)
    (r : ClientRow) : List (κ × List ClientRow) :=
  match groups with
  | [] => [(k, [r])]
  | (k₀, rs) :: rest =>
      if k₀ = k then (k₀, rs ++ [r]) :: rest
      else (k₀, rs) :: addToGroup rest k r

/-- The branch and sub-branch grouping pass of `_process_special_zones`
(`main.py:1257-1282`): every registry row with a recognised resolved
branch (regardless of its zone status) joins the branch group, and with
a recognised sub-branch also the sub-branch group. -/
def buildGroups (dir : CodeDirectory) (rows : List ClientRow) :
    List (Nat × List ClientRow) × List ((Nat × Nat) × List ClientRow) :=
  rows.foldl
    (fun acc row =>
      if row.final_tb ≠ "" ∧ row.final_tb ≠ "-" then
        let tb_code := _get_tb_code_from_name dir row.final_tb
        if 0 < tb_code then
          let tbg := addToGroup acc.1 tb_code row
          if row.final_gosb ≠ "" ∧ row.final_gosb ≠ "-" then
            let gosb_code := _get_gosb_code_from_name dir row.final_gosb tb_code
            if 0 < gosb_code then
              (tbg, addToGroup acc.2 (tb_code, gosb_code) row)
            else (tbg, acc.2)
          else (tbg, acc.2)
        else acc
      else acc)
    ([], [])

/-- `PeriodComparison._generate_grey_zone_tab_number` (`main.py:1162-1180`). -/
def _generate_grey_zone_tab_number (tb_code gosb_code : Nat) : Nat :=
  if tb_code = 0 then 90000000
  else if gosb_code = 0 then 90000000 + tb_code * 1000
  else
    (strToNat ("9" ++ zfill (toString tb_code) 2 ++
      zfill (toString gosb_code) 6)).getD 0

/-- `PeriodComparison._generate_other_tab_number` (`main.py:1182-1200`). -/
def _generate_other_tab_number (tb_code gosb_code : Nat) : Nat :=
  if tb_code = 0 then 80000000
  else if gosb_code = 0 then 80000000 + tb_code * 1000
  else
    (strToNat ("8" ++ zfill (toString tb_code) 2 ++
      zfill (toString gosb_code) 6)).getD 0

/-- `PeriodComparison._create_special_zone_entry` (`main.py:1403-1453`)
applied to an already-materialised filtered row list: `none` when the
filtered set is empty, otherwise a `CanonicalClientRow`-shaped bucket
row whose `value_period_i` is the sum over the filtered rows.  In the
`create_clients_base` flow the `growth` column does not exist yet, so
the entry's growth is 0 (`main.py:1448-1451`). -/
def _create_special_zone_entry (file_count : Nat) (tab_number : Nat)
    (fio tb gosb : String) (filtered : List ClientRow) : Option ClientRow :=
  if filtered.length = 0 then none
  else
    some
      { client_key := "special_" ++ toString tab_number,
        periods :=
          (List.range file_count).map
            (fun i =>
              { emptySlot with
                  value := (filtered.map (fun r => valueAt r (i + 1))).sum }),
        final_tab_number := tab_number, final_fio := fio, final_tb := tb,
        final_gosb := gosb, growth := 0 }

/-- Append a synthesized bucket row when one was produced
(`clients_base.loc[len(clients_base)] = ...`, guarded by the
`is not None` checks in `main.py:1308-1345`). -/
def appendEntry (rows : List ClientRow) (e : Option ClientRow) :
    List ClientRow :=
  match e with
  | none => rows
  | some r => rows ++ [r]

/-- `PeriodComparison._process_grey_zone` (`main.py:1291-1345`): the
global grey bucket is computed over the whole current registry
(`filter_rows=None`), then one bucket per branch group and one per
sub-branch group, each over the rows captured in the group. -/
def _process_grey_zone (file_count : Nat) (dir : CodeDirectory)
    (rows : List ClientRow) (tb_groups : List (Nat × List ClientRow))
    (gosb_groups : List ((Nat × Nat) × List ClientRow)) : List ClientRow :=
  let rows :=
    appendEntry rows
      (_create_special_zone_entry file_count 90000000 "Серая зона" "-" "-" rows)
  let rows :=
    tb_groups.foldl
      (fun acc g =>
        appendEntry acc
          (_create_special_zone_entry file_count
            (_generate_grey_zone_tab_number g.1 0)
            ("Серая зона " ++ tbShortName dir g.1) (tbShortName dir g.1) "-"
            g.2))
      rows
  gosb_groups.foldl
    (fun acc g =>
      appendEntry acc
        (_create_special_zone_entry file_count
          (_generate_grey_zone_tab_number g.1.1 g.1.2)
          ("Серая зона " ++ tbShortName dir g.1.1 ++ " " ++
            gosbName dir g.1.1 g.1.2)
          (tbShortName dir g.1.1) (gosbName dir g.1.1 g.1.2) g.2))
    rows

/-- `PeriodComparison._process_other_zone` (`main.py:1347-1401`): same
structure as the grey zone with the 80-million encoding; its global
bucket is again computed over the whole current registry, which by now
also contains the freshly appended grey-zone buckets. -/
def _process_other_zone (file_count : Nat) (dir : CodeDirectory)
    (rows : List ClientRow) (tb_groups : List (Nat × List ClientRow))
    (gosb_groups : List ((Nat × Nat) × List ClientRow)) : List ClientRow :=
  let rows :=
    appendEntry rows
      (_create_special_zone_entry file_count 80000000 "Прочее" "-" "-" rows)
  let rows :=
    tb_groups.foldl
      (fun acc g =>
        appendEntry acc
          (_create_special_zone_entry file_count
            (_generate_other_tab_number g.1 0)
            ("Прочее " ++ tbShortName dir g.1) (tbShortName dir g.1) "-" g.2))
      rows
  gosb_groups.foldl
    (fun acc g =>
      appendEntry acc
        (_create_special_zone_entry file_count
          (_generate_other_tab_number g.1.1 g.1.2)
          ("Прочее " ++ tbShortName dir g.1.1 ++ " " ++
            gosbName dir g.1.1 g.1.2)
          (tbShortName dir g.1.1) (gosbName dir g.1.1 g.1.2) g.2))
    rows

/-- `PeriodComparison._process_special_zones` (`main.py:1252-1289`). -/
def _process_special_zones (file_count : Nat) (dir : CodeDirectory)
    (rows : List ClientRow) : List ClientRow :=
  let groups := buildGroups dir rows
  _process_other_zone file_count dir
    (_process_grey_zone file_count dir rows groups.1 groups.2)
    groups.1 groups.2

/-- The final sentinel normalisation of `main.py:472-480`: a row whose
final tab number is 70 000 000 or 90 000 000 has `final_tb`/`final_gosb`
set to the placeholder. -/
def applyFinalSentinelPlaceholder (r : ClientRow) : ClientRow :=
  if r.final_tab_number = 70000000 ∨ r.final_tab_number = 90000000 then
    { r with final_tb := "-", final_gosb := "-" }
  else r

/-- `PeriodComparison.create_clients_base` (`main.py:323-483`): the
resolved registry, extended with the special-zone buckets, then the
final sentinel placeholder pass.  The source function contains no
configuration-error check on the period count; it completes for any
number of frames. -/
def create_clients_base (file_count mode : Nat) (dir : CodeDirectory)
    (frames : List (List RawRecord)) : List ClientRow :=
  (_process_special_zones file_count dir
    (buildResolvedRows mode frames)).map applyFinalSentinelPlaceholder

/-- `PeriodComparison.calculate_growth` (`main.py:485-517`): two periods
give `v1 - v2`, three give `(v1 - v2) - (v2 - v3)`, any other period
count raises `ValueError` (modelled as `Except.error`). -/
def calculate_growth (file_count : Nat) (rows : List ClientRow) :
    Except String (List ClientRow) :=
  if file_count = 2 then
    Except.ok (rows.map (fun r => { r with growth := valueAt r 1 - valueAt r 2 }))
  else if file_count = 3 then
    Except.ok
      (rows.map
        (fun r =>
          { r with
              growth :=
                (valueAt r 1 - valueAt r 2) - (valueAt r 2 - valueAt r 3) }))
  else
    Except.error ("Неподдерживаемое количество периодов: " ++ toString file_count)

/-- `PeriodComparison._get_manager_aggregation_key_from_final`
(`main.py:1227-1250`). -/
def managerKeyFromFinal (mode : Nat) (r : ClientRow) : String :=
  if mode = 1 then toString r.final_tab_number
  else if mode = 2 then toString r.final_tab_number ++ "_" ++ r.final_tb
  else if mode = 3 then
    toString r.final_tab_number ++ "_" ++ r.final_tb ++ "_" ++ r.final_gosb
  else toString r.final_tab_number

/-- A row of the canonical manager summary (`main.py:519-580`):
`value_3` is 0 when only two periods are configured (the source drops
the column in that case). -/
structure ManagerSummaryRow where
  manager_key : String
  tab_number : Nat
  fio : String
  tb : String
  gosb : String
  value_1 : Int
  value_2 : Int
  value_3 : Int
  total_growth : Int
deriving DecidableEq, Repr

/-- One group of `create_managers_summary` (`main.py:539-573`):
descriptive fields from the first row of the group, values and growth
summed, tab number parsed back from the first `_`-component of the
key. -/
def mkManagerSummaryRow (file_count mode : Nat) (rows : List ClientRow)
    (k : String) : ManagerSummaryRow :=
  let grp := rows.filter (fun r => managerKeyFromFinal mode r = k)
  { manager_key := k,
    tab_number := (strToNat (firstComponent k)).getD 0,
    fio := ((grp.head?.map (fun r => r.final_fio)).getD ""),
    tb := ((grp.head?.map (fun r => r.final_tb)).getD ""),
    gosb := ((grp.head?.map (fun r => r.final_gosb)).getD ""),
    value_1 := (grp.map (fun r => valueAt r 1)).sum,
    value_2 := (grp.map (fun r => valueAt r 2)).sum,
    value_3 :=
      if file_count = 3 then (grp.map (fun r => valueAt r 3)).sum else 0,
    total_growth := (grp.map (fun r => r.growth)).sum }

/-- `PeriodComparison.create_managers_summary` (`main.py:519-580`): the
registry grouped by the manager aggregation key of the `final_*`
columns.  (pandas sorts the group keys; row order is irrelevant to the
claims and first-occurrence order is used here.) -/
def create_managers_summary (file_count mode : Nat)
    (rows : List ClientRow) : List ManagerSummaryRow :=
  (dedupFirst (rows.map (managerKeyFromFinal mode))).map
    (mkManagerSummaryRow file_count mode rows)

/-- A row of the deal-date manager summary (`main.py:582-651`);
`total_growth` is `none` when the period count is neither 2 nor 3 (the
source then never creates the column). -/
structure DealDateRow where
  tab_number : Nat
  fio : String
  tb : String
  gosb : String
  value_1 : Int
  value_2 : Int
  value_3 : Int
  total_growth : Option Int
deriving DecidableEq, Repr

/-- The summed value reported under one raw manager id in one period's
raw frame (`df.groupby('tab_number').agg({'value': 'sum'})`,
`main.py:605-610`). -/
def periodManagerSum (frame : List RawRecord) (m : Nat) : Int :=
  ((frame.filter (fun r => r.tab_number = m)).map (fun r => r.value)).sum

/-- The first raw record of a manager across the period frames in
order: the source of the descriptive fields of a deal-date row
(first period in which the manager appears, first record within it). -/
def firstRecordOf (frames : List (List RawRecord)) (m : Nat) :
    Option RawRecord :=
  match frames with
  | [] => none
  | f :: fs =>
      match f.find? (fun r => r.tab_number == m) with
      | some r => some r
      | none => firstRecordOf fs m

/-- One row of `create_managers_deal_date_summary` for a raw manager id:
per-period sums straight from the raw frames (a period where the
manager is absent keeps the 0 initialisation), growth from the same
formula as `calculate_growth` applied to the manager's own sums
(`main.py:612-648`). -/
def mkDealDateRow (file_count : Nat) (frames : List (List RawRecord))
    (m : Nat) : DealDateRow :=
  let v1 := periodManagerSum (frames.getD 0 []) m
  let v2 := periodManagerSum (frames.getD 1 []) m
  let v3 := periodManagerSum (frames.getD 2 []) m
  { tab_number := m,
    fio := ((firstRecordOf frames m).map (fun r => r.fio)).getD "",
    tb := ((firstRecordOf frames m).map (fun r => r.tb)).getD "",
    gosb := ((firstRecordOf frames m).map (fun r => r.gosb)).getD "",
    value_1 := v1, value_2 := v2, value_3 := v3,
    total_growth :=
      if file_count = 2 then some (v1 - v2)
      else if file_count = 3 then some ((v1 - v2) - (v2 - v3))
      else none }

/-- `PeriodComparison.create_managers_deal_date_summary`
(`main.py:582-651`): one row per raw manager id appearing in any raw
period frame, built from the raw frames only — the canonical `final_*`
assignment plays no part. -/
def create_managers_deal_date_summary (file_count : Nat)
    (frames : List (List RawRecord)) : List DealDateRow :=
  (dedupFirst ((frames.map (fun f => f.map (fun r => r.tab_number))).flatten)).map
    (mkDealDateRow file_count frames)

/-! Supporting lemmas. -/

/-- Membership in the first-occurrence deduplication: exactly the
elements of the list not already seen. -/
theorem mem_dedupFirstAux [DecidableEq κ] (l : List κ) :
    ∀ (seen : List κ) (a : κ),
      a ∈ dedupFirstAux l seen ↔ a ∈ l ∧ a ∉ seen := by
  induction l with
  | nil => intro seen a; simp [dedupFirstAux]
  | cons k ks ih =>
      intro seen a
      by_cases hk : k ∈ seen
      · rw [show dedupFirstAux (k :: ks) seen = dedupFirstAux ks seen from by
          simp [dedupFirstAux, hk]]
        rw [ih seen a]
        constructor
        · rintro ⟨ha, hs⟩; exact ⟨List.mem_cons_of_mem _ ha, hs⟩
        · rintro ⟨ha, hs⟩
          rcases List.mem_cons.1 ha with h | h
          · exact absurd (h ▸ hk) hs
          · exact ⟨h, hs⟩
      · rw [show dedupFirstAux (k :: ks) seen =
            k :: dedupFirstAux ks (k :: seen) from by simp [dedupFirstAux, hk]]
        rw [List.mem_cons, ih (k :: seen) a]
        constructor
        · rintro (h | ⟨ha, hs⟩)
          · subst h; exact ⟨List.mem_cons_self _ _, hk⟩
          · exact ⟨List.mem_cons_of_mem _ ha,
              fun hc => hs (List.mem_cons_of_mem _ hc)⟩
        · rintro ⟨ha, hs⟩
          by_cases hak : a = k
          · exact Or.inl hak
          · rcases List.mem_cons.1 ha with h | h
            · exact absurd h hak
            · refine Or.inr ⟨h, fun hc => ?_⟩
              rcases List.mem_cons.1 hc with h₂ | h₂
              · exact hak h₂
              · exact hs h₂

/-- The first-occurrence deduplication has no duplicates. -/
theorem nodup_dedupFirstAux [DecidableEq κ] (l : List κ) :
    ∀ seen : List κ, (dedupFirstAux l seen).Nodup := by
  induction l with
  | nil => intro seen; simp [dedupFirstAux]
  | cons k ks ih =>
      intro seen
      by_cases hk : k ∈ seen
      · rw [show dedupFirstAux (k :: ks) seen = dedupFirstAux ks seen from by
          simp [dedupFirstAux, hk]]
        exact ih seen
      · rw [show dedupFirstAux (k :: ks) seen =
            k :: dedupFirstAux ks (k :: seen) from by simp [dedupFirstAux, hk]]
        refine List.nodup_cons.2 ⟨?_, ih (k :: seen)⟩
        intro hc
        exact ((mem_dedupFirstAux ks (k :: seen) k).1 hc).2
          (List.mem_cons_self _ _)

theorem mem_dedupFirst [DecidableEq κ] {l : List κ} {a : κ} :
    a ∈ dedupFirst l ↔ a ∈ l := by
  simp [dedupFirst, mem_dedupFirstAux]

theorem nodup_dedupFirst [DecidableEq κ] (l : List κ) :
    (dedupFirst l).Nodup :=
  nodup_dedupFirstAux l []

/-- The best value tracked by the manager scan never decreases. -/
theorem scanManager_snd_le (elig : PeriodSlot → Bool) (ps : List PeriodSlot) :
    ∀ acc, acc.2 ≤ (scanManager elig ps acc).2 := by
  induction ps with
  | nil => intro acc; simp [scanManager]
  | cons p ps ih =>
      intro acc
      simp only [scanManager]
      by_cases h₁ : p.tab_number ≠ 0 ∧ acc.2 < p.value
      · by_cases h₂ : elig p = true
        · rw [if_pos h₁, if_pos h₂]
          exact le_trans (le_of_lt h₁.2) (ih (some p, p.value))
        · rw [if_pos h₁, if_neg h₂]; exact ih acc
      · rw [if_neg h₁]; exact ih acc

/-- The manager scan either keeps its accumulator or returns some
eligible period with nonzero tab number whose value beats the
accumulator. -/
theorem scanManager_cases (elig : PeriodSlot → Bool) (ps : List PeriodSlot) :
    ∀ acc, scanManager elig ps acc = acc ∨
      ∃ p, p ∈ ps ∧ elig p = true ∧ p.tab_number ≠ 0 ∧ acc.2 < p.value ∧
        scanManager elig ps acc = (some p, p.value) := by
  induction ps with
  | nil => intro acc; exact Or.inl rfl
  | cons p ps ih =>
      intro acc
      simp only [scanManager]
      by_cases h₁ : p.tab_number ≠ 0 ∧ acc.2 < p.value
      · by_cases h₂ : elig p = true
        · rw [if_pos h₁, if_pos h₂]
          rcases ih (some p, p.value) with h | ⟨q, hq, he, ht, hv, heq⟩
          · exact Or.inr ⟨p, List.mem_cons_self _ _, h₂, h₁.1, h₁.2, h⟩
          · exact Or.inr ⟨q, List.mem_cons_of_mem _ hq, he, ht,
              lt_trans h₁.2 hv, heq⟩
        · rw [if_pos h₁, if_neg h₂]
          rcases ih acc with h | ⟨q, hq, he, ht, hv, heq⟩
          · exact Or.inl h
          · exact Or.inr ⟨q, List.mem_cons_of_mem _ hq, he, ht, hv, heq⟩
      · rw [if_neg h₁]
        rcases ih acc with h | ⟨q, hq, he, ht, hv, heq⟩
        · exact Or.inl h
        · exact Or.inr ⟨q, List.mem_cons_of_mem _ hq, he, ht, hv, heq⟩

/-- Every eligible period with nonzero tab number is bounded by the
value the scan ends with. -/
theorem scanManager_ub (elig : PeriodSlot → Bool) (ps : List PeriodSlot) :
    ∀ acc q, q ∈ ps → elig q = true → q.tab_number ≠ 0 →
      q.value ≤ (scanManager elig ps acc).2 := by
  induction ps with
  | nil => intro acc q hq; cases hq
  | cons p ps ih =>
      intro acc q hq he ht
      rcases List.mem_cons.1 hq with h | h
      · subst h
        simp only [scanManager]
        by_cases h₁ : q.tab_number ≠ 0 ∧ acc.2 < q.value
        · rw [if_pos h₁, if_pos he]
          exact scanManager_snd_le elig ps (some q, q.value)
        · rw [if_neg h₁]
          have hv : q.value ≤ acc.2 := by
            by_contra hc
            exact h₁ ⟨ht, lt_of_not_le hc⟩
          exact le_trans hv (scanManager_snd_le elig ps acc)
      · simp only [scanManager]
        by_cases h₁ : p.tab_number ≠ 0 ∧ acc.2 < p.value
        · by_cases h₂ : elig p = true
          · rw [if_pos h₁, if_pos h₂]; exact ih _ q h he ht
          · rw [if_pos h₁, if_neg h₂]; exact ih _ q h he ht
        · rw [if_neg h₁]; exact ih _ q h he ht

/-- When no period with nonzero tab number is eligible, the scan keeps
its accumulator. -/
theorem scanManager_skip (elig : PeriodSlot → Bool) (ps : List PeriodSlot)
    (h : ∀ p ∈ ps, p.tab_number ≠ 0 → elig p = false) :
    ∀ acc, scanManager elig ps acc = acc := by
  induction ps with
  | nil => intro acc; rfl
  | cons p ps ih =>
      intro acc
      simp only [scanManager]
      by_cases h₁ : p.tab_number ≠ 0 ∧ acc.2 < p.value
      · have he : elig p = false := h p (List.mem_cons_self _ _) h₁.1
        rw [if_pos h₁, if_neg (by simp [he])]
        exact ih (fun q hq => h q (List.mem_cons_of_mem _ hq)) acc
      · rw [if_neg h₁]
        exact ih (fun q hq => h q (List.mem_cons_of_mem _ hq)) acc

/-- Characterisation of a successful scan from the initial accumulator:
the returned period is an eligible member with nonzero tab number and
strictly positive value, maximal among all eligible candidates. -/
theorem scanManager_select_some (elig : PeriodSlot → Bool)
    (ps : List PeriodSlot) (p : PeriodSlot)
    (h : (scanManager elig ps (none, 0)).1 = some p) :
    p ∈ ps ∧ elig p = true ∧ p.tab_number ≠ 0 ∧ 0 < p.value ∧
      ∀ q ∈ ps, elig q = true → q.tab_number ≠ 0 → q.value ≤ p.value := by
  rcases scanManager_cases elig ps (none, 0) with heq | ⟨q, hq, he, ht, hv, heq⟩
  · rw [heq] at h; cases h
  · rw [heq] at h
    have hqp : q = p := Option.some.inj h
    subst hqp
    refine ⟨hq, he, ht, hv, fun r hr her htr => ?_⟩
    have := scanManager_ub elig ps (none, 0) r hr her htr
    rw [heq] at this
    exact this

/-- When the scan fails from the initial accumulator, every eligible
candidate has value at most 0. -/
theorem scanManager_select_none (elig : PeriodSlot → Bool)
    (ps : List PeriodSlot) (h : (scanManager elig ps (none, 0)).1 = none) :
    ∀ q ∈ ps, elig q = true → q.tab_number ≠ 0 → q.value ≤ 0 := by
  intro q hq he ht
  rcases scanManager_cases elig ps (none, 0) with heq | ⟨r, _, _, _, _, heq⟩
  · have := scanManager_ub elig ps (none, 0) q hq he ht
    rw [heq] at this
    exact this
  · rw [heq] at h; cases h

/-- Splitting a mapped sum along a decidable predicate. -/
theorem sum_map_filter_split {α : Type} (P : α → Prop) [DecidablePred P]
    (f : α → Int) (l : List α) :
    ((l.filter (fun a => P a)).map f).sum +
      ((l.filter (fun a => ¬ P a)).map f).sum = (l.map f).sum := by
  induction l with
  | nil => simp
  | cons a l ih =>
      rw [List.filter_cons, List.filter_cons]
      by_cases h : P a
      · rw [if_pos (by simpa using h), if_neg (by simpa using h)]
        simp only [List.map_cons, List.sum_cons]
        rw [add_assoc, ih]
      · rw [if_neg (by simpa using h), if_pos (by simpa using h)]
        simp only [List.map_cons, List.sum_cons]
        rw [add_left_comm, ih]

/-- Summing group sums over a duplicate-free covering key list equals
the total sum. -/
theorem sum_groups_aux {α κ : Type} [DecidableEq κ] (kf : α → κ)
    (f : α → Int) :
    ∀ ks : List κ, ks.Nodup → ∀ rows : List α, (∀ r ∈ rows, kf r ∈ ks) →
      (ks.map
        (fun k => ((rows.filter (fun r => kf r = k)).map f).sum)).sum =
        (rows.map f).sum := by
  intro ks
  induction ks with
  | nil =>
      intro _ rows hcov
      cases rows with
      | nil => simp
      | cons r rows => exact absurd (hcov r (List.mem_cons_self _ _)) (by simp)
  | cons k ks ih =>
      intro hnd rows hcov
      have hknotin : k ∉ ks := (List.nodup_cons.1 hnd).1
      have hrest :
          (ks.map
            (fun k₀ => ((rows.filter (fun r => kf r = k₀)).map f).sum)).sum =
            ((rows.filter (fun r => ¬ kf r = k)).map f).sum := by
        have hstep :
            ∀ k₀ ∈ ks,
              rows.filter (fun r => kf r = k₀) =
                (rows.filter (fun r => ¬ kf r = k)).filter
                  (fun r => kf r = k₀) := by
          intro k₀ hk₀
          have hne : k₀ ≠ k := fun hc => hknotin (hc ▸ hk₀)
          rw [List.filter_filter]
          apply List.filter_congr
          intro a _
          by_cases hak : kf a = k₀
          · have : ¬ kf a = k := fun hc => hne (by rw [← hak, hc])
            simp [hak, this, hne]
          · simp [hak]
        have hmapeq :
            (ks.map
              (fun k₀ => ((rows.filter (fun r => kf r = k₀)).map f).sum)) =
              (ks.map
                (fun k₀ =>
                  (((rows.filter (fun r => ¬ kf r = k)).filter
                    (fun r => kf r = k₀)).map f).sum)) := by
          apply List.map_congr_left
          intro k₀ hk₀
          rw [hstep k₀ hk₀]
        rw [hmapeq]
        apply ih (List.nodup_cons.1 hnd).2
        intro r hr
        have hrrows : r ∈ rows := List.mem_of_mem_filter hr
        have hneq : ¬ kf r = k := by
          have := List.of_mem_filter hr
          simpa using this
        rcases List.mem_cons.1 (hcov r hrrows) with h | h
        · exact absurd h hneq
        · exact h
      simp only [List.map_cons, List.sum_cons, hrest]
      exact sum_map_filter_split (fun r => kf r = k) f rows

/-- Value conservation of first-occurrence grouping: mapping each
distinct key to the sum of its group and summing recovers the total. -/
theorem sum_groups {α κ : Type} [DecidableEq κ] (kf : α → κ) (f : α → Int)
    (rows : List α) :
    ((dedupFirst (rows.map kf)).map
      (fun k => ((rows.filter (fun r => kf r = k)).map f).sum)).sum =
      (rows.map f).sum := by
  apply sum_groups_aux kf f (dedupFirst (rows.map kf)) (nodup_dedupFirst _)
  intro r hr
  exact mem_dedupFirst.2 (List.mem_map_of_mem kf hr)

/-- If every nonzero-tab period fails the consistency check, both scans
fail and the row resolves to final tab number 0. -/
theorem resolveFinal_all_check_false (mode : Nat) (ps : List PeriodSlot)
    (h : ∀ p ∈ ps, p.tab_number ≠ 0 →
      _check_manager_client_match p mode "" "" = false) :
    resolveFinal mode ps = ⟨0, "", "", ""⟩ := by
  have hprim : selectBestManager mode "" "" ps = none := by
    have hskip := scanManager_skip (eligPrimary mode "" "") ps
      (fun p hp ht => by simp [eligPrimary, h p hp ht]) (none, 0)
    simp [selectBestManager, hskip]
  have hfb : selectFallbackManager mode "" "" ps = none := by
    have hskip := scanManager_skip
      (fun p => _check_manager_client_match p mode "" "") ps
      (fun p hp ht => h p hp ht) (none, 0)
    simp [selectFallbackManager, hskip]
  simp [resolveFinal, hprim, hfb]

/-! Concrete fixtures used to settle the claims. -/

/-- A directory with no branch/sub-branch entries (every name lookup
misses, code 0). -/
def emptyDir : CodeDirectory := ⟨[], []⟩

/-- Fallback row for positional access into computed registries. -/
def defaultClientRow : ClientRow := ⟨"", [], 0, "", "", "", 0⟩

/-! ## Claim C1 -/

/-- C1: for every registry row the growth field is `v1 - v2` with two
configured periods and `(v1 - v2) - (v2 - v3)` with three, and any
other period count makes `calculate_growth` fail with a configuration
error instead of producing a result. -/
theorem C1_growth_formula (file_count : Nat) (rows : List ClientRow)
    (h2 : file_count ≠ 2) (h3 : file_count ≠ 3) :
    (∀ out, calculate_growth 2 rows = Except.ok out →
      ∀ r ∈ out, r.growth = valueAt r 1 - valueAt r 2) ∧
    (∀ out, calculate_growth 3 rows = Except.ok out →
      ∀ r ∈ out, r.growth =
        (valueAt r 1 - valueAt r 2) - (valueAt r 2 - valueAt r 3)) ∧
    (calculate_growth file_count rows).isOk = false := by
  refine ⟨?_, ?_, ?_⟩
  · intro out hout r hr
    have hmap : rows.map
        (fun r => { r with growth := valueAt r 1 - valueAt r 2 }) = out := by
      simpa [calculate_growth] using hout
    rw [← hmap] at hr
    rcases List.mem_map.1 hr with ⟨r₀, _, rfl⟩
    simp [valueAt]
  · intro out hout r hr
    have hmap : rows.map
        (fun r =>
          { r with growth :=
              (valueAt r 1 - valueAt r 2) - (valueAt r 2 - valueAt r 3) }) =
          out := by
      simpa [calculate_growth] using hout
    rw [← hmap] at hr
    rcases List.mem_map.1 hr with ⟨r₀, _, rfl⟩
    simp [valueAt]
  · simp [calculate_growth, h2, h3, Except.isOk, Except.toBool]

/-- C1 witness: the theorem applied at period count 4 and an empty
registry. -/
theorem C1_growth_formula_witness :
    (calculate_growth 4 ([] : List ClientRow)).isOk = false :=
  (C1_growth_formula 4 [] (by decide) (by decide)).2.2

/-! ## Claim C3 -/

/-- Input in which client C's only candidate manager id is in the
excluded first-digit-8 pattern.  Both period frames are non-empty (the
second holds an unrelated client D with a regular manager), so the run
stays inside the source's normal path: client C is simply absent from
period 2 and gets the left-join defaults there. -/
def framesOnlyExcluded : List (List RawRecord) :=
  [[⟨"C", 81234567, "f", "T", "G", "n", 50⟩],
   [⟨"D", 11, "h", "T", "G", "m", 10⟩]]

/-- C3 counterexample: when a client's only candidate id is excluded,
the fallback re-scan of `create_clients_base` assigns it anyway, so a
canonical client row does end up with a final manager id in the
first-digit-8 pattern.  (Every period frame of the input is non-empty,
so the source's empty-frame abort path is not involved.) -/
theorem C3_exclusion_invariant_counterexample :
    (framesOnlyExcluded.all (fun f => !f.isEmpty)) = true ∧
    ((create_clients_base 2 1 emptyDir framesOnlyExcluded).getD 0
      defaultClientRow).client_key = "C" ∧
    ((create_clients_base 2 1 emptyDir framesOnlyExcluded).getD 0
      defaultClientRow).final_tab_number = 81234567 ∧
    _is_excluded_tab_number
      ((create_clients_base 2 1 emptyDir framesOnlyExcluded).getD 0
        defaultClientRow).final_tab_number = true := by decide

/-- C3 (amended): the primary selection scan never chooses an excluded
manager id; an excluded id can become the final assignment only through
the last-resort fallback re-scan, which runs without the exclusion
check. -/
theorem C3_primary_scan_never_excluded (mode : Nat)
    (final_tb final_gosb : String) (ps : List PeriodSlot) (p : PeriodSlot)
    (h : selectBestManager mode final_tb final_gosb ps = some p) :
    _is_excluded_tab_number p.tab_number = false := by
  have hs := scanManager_select_some _ ps p h
  have he := hs.2.1
  simp only [eligPrimary, Bool.and_eq_true, Bool.not_eq_true'] at he
  exact he.2

/-- C3 witness: the amended theorem applied to a one-period input with a
regular manager id. -/
theorem C3_primary_scan_never_excluded_witness :
    _is_excluded_tab_number
      (⟨11, "f", "T", "G", "n", 50⟩ : PeriodSlot).tab_number = false :=
  C3_primary_scan_never_excluded 1 "" "" [⟨11, "f", "T", "G", "n", 50⟩]
    ⟨11, "f", "T", "G", "n", 50⟩ (by decide)

/-! ## Claim C4 -/

/-- C4 counterexample: a single candidate with nonzero manager id,
passing every eligibility test, but with value 0.  Among the eligible
assignments it has the largest summed value, yet resolution leaves the
row at final manager id 0, because both scans require a strictly
positive value. -/
theorem C4_largest_value_counterexample :
    eligPrimary 1 "" "" ⟨123, "f", "T", "G", "n", 0⟩ = true ∧
    (⟨123, "f", "T", "G", "n", 0⟩ : PeriodSlot).tab_number ≠ 0 ∧
    resolveFinal 1 [⟨123, "f", "T", "G", "n", 0⟩] = ⟨0, "", "", ""⟩ := by
  decide

/-- C4 (amended): among candidate periods with nonzero manager id and
strictly positive value that pass the consistency and exclusion checks,
resolution picks one with the largest summed value; if none qualifies
it re-scans without the exclusion check (still requiring a strictly
positive value and the consistency check); if still none is found the
final manager id is 0. -/
theorem C4_selection_rule (mode : Nat) (ps : List PeriodSlot) :
    (∀ p, selectBestManager mode "" "" ps = some p →
        p ∈ ps ∧ p.tab_number ≠ 0 ∧ 0 < p.value ∧
          eligPrimary mode "" "" p = true ∧
          (∀ q ∈ ps, q.tab_number ≠ 0 → eligPrimary mode "" "" q = true →
            q.value ≤ p.value) ∧
          resolveFinal mode ps = ⟨p.tab_number, p.fio, p.tb, p.gosb⟩) ∧
    (selectBestManager mode "" "" ps = none →
      (∀ p, selectFallbackManager mode "" "" ps = some p →
          p ∈ ps ∧ p.tab_number ≠ 0 ∧ 0 < p.value ∧
            _check_manager_client_match p mode "" "" = true ∧
            (∀ q ∈ ps, q.tab_number ≠ 0 →
              _check_manager_client_match q mode "" "" = true →
              q.value ≤ p.value) ∧
            resolveFinal mode ps = ⟨p.tab_number, p.fio, p.tb, p.gosb⟩) ∧
      (selectFallbackManager mode "" "" ps = none →
        resolveFinal mode ps = ⟨0, "", "", ""⟩)) := by
  constructor
  · intro p hp
    have hs := scanManager_select_some _ ps p hp
    exact ⟨hs.1, hs.2.2.1, hs.2.2.2.1, hs.2.1,
      fun q hq ht he => hs.2.2.2.2 q hq he ht, by simp [resolveFinal, hp]⟩
  · intro hnone
    constructor
    · intro p hp
      have hs := scanManager_select_some _ ps p hp
      refine ⟨hs.1, hs.2.2.1, hs.2.2.2.1, by simpa using hs.2.1,
        fun q hq ht he => hs.2.2.2.2 q hq (by simpa using he) ht, ?_⟩
      simp [resolveFinal, hnone, hp]
    · intro hfb
      simp [resolveFinal, hnone, hfb]

/-- C4 witness: the amended theorem applied to a one-period input with a
positive value. -/
theorem C4_selection_rule_witness :
    resolveFinal 1 [⟨11, "f", "T", "G", "n", 50⟩] = ⟨11, "f", "T", "G"⟩ :=
  ((C4_selection_rule 1 [⟨11, "f", "T", "G", "n", 50⟩]).1
    ⟨11, "f", "T", "G", "n", 50⟩ (by decide)).2.2.2.2.2

/-! ## Claim C7 -/

/-- C7 counterexample: a sentinel manager id (70 000 000 or 90 000 000)
carrying the highest positive value is not excluded by
`_is_excluded_tab_number` and is chosen as the final manager by
resolution, contradicting the claim that neither sentinel is ever
chosen as a real final manager. -/
theorem C7_sentinel_final_counterexample :
    resolveFinal 1 [⟨70000000, "", "-", "-", "", 50⟩] =
      ⟨70000000, "", "-", "-"⟩ ∧
    resolveFinal 1 [⟨90000000, "", "-", "-", "", 60⟩] =
      ⟨90000000, "", "-", "-"⟩ ∧
    _is_excluded_tab_number 70000000 = false ∧
    _is_excluded_tab_number 90000000 = false := by decide

/-- C7 (amended): at load time a missing/blank manager id maps to
70 000 000 and an explicit grey-zone marker to 90 000 000; a period
carrying either sentinel has its branch/sub-branch cleared to the
placeholder, and a row whose final manager id is a sentinel has its
final branch/sub-branch cleared likewise — but the sentinels are not
excluded by the exclusion check and can be chosen as the final manager
when they carry the highest positive value. -/
theorem C7_sentinel_normalization (s g : String)
    (hs : removeApostrophes (strTrim s) = "-" ∨
      removeApostrophes (strTrim s) = "" ∨
      removeApostrophes (strTrim s) = "nan" ∨
      removeApostrophes (strTrim s) = "None" ∨
      removeApostrophes (strTrim s) = "null")
    (hg : strToLower (removeApostrophes (strTrim g)) = "grey_zone" ∨
      strToLower (removeApostrophes (strTrim g)) = "grey zone" ∨
      strToLower (removeApostrophes (strTrim g)) = "greyzone")
    (slot : PeriodSlot)
    (hslot : slot.tab_number = 70000000 ∨ slot.tab_number = 90000000)
    (r : ClientRow)
    (hr : r.final_tab_number = 70000000 ∨ r.final_tab_number = 90000000) :
    _validate_tab_number s = 70000000 ∧
    _validate_tab_number g = 90000000 ∧
    (clearSentinelSlot slot).tb = "-" ∧ (clearSentinelSlot slot).gosb = "-" ∧
    _is_excluded_tab_number 70000000 = false ∧
    _is_excluded_tab_number 90000000 = false ∧
    (applyFinalSentinelPlaceholder r).final_tb = "-" ∧
    (applyFinalSentinelPlaceholder r).final_gosb = "-" := by
  refine ⟨?_, ?_, ?_, ?_, by decide, by decide, ?_, ?_⟩
  · simp only [_validate_tab_number]
    rcases hs with h | h | h | h | h <;> rw [h] <;> decide
  · simp only [_validate_tab_number]
    rcases hg with h | h | h <;> rw [h] <;> simp
  · rcases hslot with h | h <;> simp [clearSentinelSlot, h]
  · rcases hslot with h | h <;> simp [clearSentinelSlot, h]
  · rcases hr with h | h <;> simp [applyFinalSentinelPlaceholder, h]
  · rcases hr with h | h <;> simp [applyFinalSentinelPlaceholder, h]

/-- C7 witness: the amended theorem applied to the blank marker, the
grey-zone marker, a sentinel period slot and a sentinel-final row. -/
theorem C7_sentinel_normalization_witness :
    _validate_tab_number "-" = 70000000 :=
  (C7_sentinel_normalization "-" "grey_zone" (by decide) (by decide)
    ⟨70000000, "", "", "", "", 0⟩ (by decide)
    ⟨"", [], 90000000, "", "", "", 0⟩ (by decide)).1

/-! ## Claim C10 -/

/-- C10: at aggregation granularity 2 or 3 the consistency check
compares a candidate period's branch (and sub-branch) against the
row's `final_tb`/`final_gosb` as initialised — the empty string — so a
registry row all of whose nonzero-id candidate periods carry a
non-empty branch passes no consistency check and ends resolution with
final manager id 0. -/
theorem C10_consistency_check_deadlock (mode : Nat)
    (hm : mode = 2 ∨ mode = 3) (frames : List (List RawRecord))
    (r : ClientRow) (hr : r ∈ buildResolvedRows mode frames)
    (hall : ∀ p ∈ r.periods, p.tab_number ≠ 0 → p.tb ≠ "") :
    r.final_tab_number = 0 := by
  rcases List.mem_map.1 hr with ⟨k, hk, rfl⟩
  show (mkClientRow mode frames k).final_tab_number = 0
  have h0 : resolveFinal mode
      ((frames.map (buildPeriodSlot mode k)).map clearSentinelSlot) =
      ⟨0, "", "", ""⟩ := by
    apply resolveFinal_all_check_false
    intro p hp ht
    have htb : p.tb ≠ "" := hall p hp ht
    rcases hm with h | h
    · simp [_check_manager_client_match, h, htb]
    · simp [_check_manager_client_match, h, htb]
  show (resolveFinal mode
    ((frames.map (buildPeriodSlot mode k)).map clearSentinelSlot)).final_tab_number = 0
  rw [h0]

/-- C10 witness: the theorem applied at granularity 2 to a single-record
input whose only candidate period has a non-empty branch. -/
theorem C10_consistency_check_deadlock_witness :
    (⟨"C_T", [⟨11, "f", "T", "G", "n", 50⟩], 0, "", "", "", 0⟩ :
      ClientRow).final_tab_number = 0 :=
  C10_consistency_check_deadlock 2 (Or.inl rfl)
    [[⟨"C", 11, "f", "T", "G", "n", 50⟩]]
    ⟨"C_T", [⟨11, "f", "T", "G", "n", 50⟩], 0, "", "", "", 0⟩
    (by decide) (by decide)

/-! ## Claim C2 -/

/-- Input whose single client is assigned to manager 111 in period 1 and
to manager 222 in period 2. -/
def framesTwoManagers : List (List RawRecord) :=
  [[⟨"C", 111, "f1", "T", "G", "n", 100⟩],
   [⟨"C", 222, "f2", "T", "G", "n", 70⟩]]

/-- C2 counterexample: in the deal-date view the row for manager 222
reports 70 for period 2, but the sum of that period's values over the
canonical client rows mapped to manager 222 (rows with that final
manager id) is 0 — the client's canonical row is mapped to manager 111.
Deal-date values are sums over raw per-period records, not over
canonical client rows. -/
theorem C2_deal_date_conservation_counterexample :
    ((create_managers_deal_date_summary 2 framesTwoManagers).getD 1
      (mkDealDateRow 2 [] 0)).tab_number = 222 ∧
    ((create_managers_deal_date_summary 2 framesTwoManagers).getD 1
      (mkDealDateRow 2 [] 0)).value_2 = 70 ∧
    (((create_clients_base 2 1 emptyDir framesTwoManagers).filter
      (fun r => r.final_tab_number = 222)).map (fun r => valueAt r 2)).sum =
      0 := by decide

/-- C2 (amended): canonical-view value conservation holds — each
manager summary row's per-period values and total growth are the sums
over the registry rows carrying its manager key, and the summary totals
equal the registry totals; deal-date rows instead conserve value
relative to the raw per-period records grouped by raw manager id, not
relative to the canonical client rows. -/
theorem C2_value_conservation (file_count mode : Nat)
    (rows : List ClientRow) (s : ManagerSummaryRow)
    (hs : s ∈ create_managers_summary file_count mode rows)
    (frames : List (List RawRecord)) (d : DealDateRow)
    (hd : d ∈ create_managers_deal_date_summary file_count frames) :
    s.value_1 = ((rows.filter
        (fun r => managerKeyFromFinal mode r = s.manager_key)).map
        (fun r => valueAt r 1)).sum ∧
    s.value_2 = ((rows.filter
        (fun r => managerKeyFromFinal mode r = s.manager_key)).map
        (fun r => valueAt r 2)).sum ∧
    (file_count = 3 → s.value_3 = ((rows.filter
        (fun r => managerKeyFromFinal mode r = s.manager_key)).map
        (fun r => valueAt r 3)).sum) ∧
    s.total_growth = ((rows.filter
        (fun r => managerKeyFromFinal mode r = s.manager_key)).map
        (fun r => r.growth)).sum ∧
    ((create_managers_summary file_count mode rows).map
        (fun t => t.value_1)).sum = (rows.map (fun r => valueAt r 1)).sum ∧
    ((create_managers_summary file_count mode rows).map
        (fun t => t.value_2)).sum = (rows.map (fun r => valueAt r 2)).sum ∧
    ((create_managers_summary file_count mode rows).map
        (fun t => t.total_growth)).sum = (rows.map (fun r => r.growth)).sum ∧
    d.value_1 = periodManagerSum (frames.getD 0 []) d.tab_number ∧
    d.value_2 = periodManagerSum (frames.getD 1 []) d.tab_number ∧
    d.value_3 = periodManagerSum (frames.getD 2 []) d.tab_number := by
  obtain ⟨k, hk, rfl⟩ := List.mem_map.1 hs
  obtain ⟨m, hm, rfl⟩ := List.mem_map.1 hd
  refine ⟨rfl, rfl, ?_, rfl, ?_, ?_, ?_, rfl, rfl, rfl⟩
  · intro h3; subst h3; rfl
  · show ((create_managers_summary file_count mode rows).map
      (fun t => t.value_1)).sum = (rows.map (fun r => valueAt r 1)).sum
    unfold create_managers_summary
    rw [List.map_map]
    exact sum_groups (managerKeyFromFinal mode) (fun r => valueAt r 1) rows
  · show ((create_managers_summary file_count mode rows).map
      (fun t => t.value_2)).sum = (rows.map (fun r => valueAt r 2)).sum
    unfold create_managers_summary
    rw [List.map_map]
    exact sum_groups (managerKeyFromFinal mode) (fun r => valueAt r 2) rows
  · show ((create_managers_summary file_count mode rows).map
      (fun t => t.total_growth)).sum = (rows.map (fun r => r.growth)).sum
    unfold create_managers_summary
    rw [List.map_map]
    exact sum_groups (managerKeyFromFinal mode) (fun r => r.growth) rows

/-- A one-row registry used to instantiate the conservation theorem. -/
def registryOneRow : List ClientRow :=
  [⟨"k", [⟨11, "f", "T", "G", "n", 50⟩], 111, "f", "T", "G", 5⟩]

/-- C2 witness: the conservation theorem applied to a one-row registry
and a one-record raw frame. -/
theorem C2_value_conservation_witness :
    (⟨"111", 111, "f", "T", "G", 50, 0, 0, 5⟩ : ManagerSummaryRow).value_1 =
      ((registryOneRow.filter (fun r => managerKeyFromFinal 1 r =
        (⟨"111", 111, "f", "T", "G", 50, 0, 0, 5⟩ :
          ManagerSummaryRow).manager_key)).map (fun r => valueAt r 1)).sum :=
  (C2_value_conservation 2 1 registryOneRow
    ⟨"111", 111, "f", "T", "G", 50, 0, 0, 5⟩ (by decide)
    [[⟨"C", 111, "f", "T", "G", "n", 50⟩]]
    ⟨111, "f", "T", "G", 50, 0, 0, some 50⟩ (by decide)).1

/-! ## Claim C5 -/

/-- Input with a single fully resolved client (manager 11111111, a
regular id) and no unresolved or excluded rows at all. -/
def framesResolvedClient : List (List RawRecord) :=
  [[⟨"C", 11111111, "f", "T", "G", "n", 100⟩],
   [⟨"C", 11111111, "f", "T", "G", "n", 80⟩]]

/-- C5: evaluation of the code at the failing input.  Every resolved
registry row has a nonzero, non-excluded final manager and no excluded
period id, so the grey/other partitions of the claim are empty — yet
the emitted global grey-zone bucket (appended at index 1) carries
`value_period_1 = 100`, the sum over *all* registry rows, and the
global other-zone bucket (index 2) carries `value_period_1 = 200`,
double-counting the grey bucket appended just before it.  The bucket
sums are not the sums over the bucket's partition. -/
theorem C5_bucket_sums_all_rows :
    ((buildResolvedRows 1 framesResolvedClient).all
      (fun r => r.final_tab_number != 0 &&
        !(_is_excluded_tab_number r.final_tab_number) &&
        r.periods.all (fun p => !(_is_excluded_tab_number p.tab_number)))) =
      true ∧
    ((create_clients_base 2 1 emptyDir framesResolvedClient).getD 1
      defaultClientRow).final_tab_number = 90000000 ∧
    valueAt ((create_clients_base 2 1 emptyDir framesResolvedClient).getD 1
      defaultClientRow) 1 = 100 ∧
    ((create_clients_base 2 1 emptyDir framesResolvedClient).getD 2
      defaultClientRow).final_tab_number = 80000000 ∧
    valueAt ((create_clients_base 2 1 emptyDir framesResolvedClient).getD 2
      defaultClientRow) 1 = 200 := by decide

/-! ## Claim C6 -/

/-- Input with a single fully resolved client (manager 22222222) and no
row matching any special-zone combination. -/
def framesResolvedClientB : List (List RawRecord) :=
  [[⟨"D", 22222222, "g", "T2", "G2", "m", 40⟩],
   [⟨"D", 22222222, "g", "T2", "G2", "m", 30⟩]]

/-- C6: evaluation of the code at the failing input.  No resolved row is
unresolved (all final ids nonzero) and no period carries an excluded
id, so zero client rows match the global grey-zone combination — yet a
grey-zone bucket row (`special_90000000`) is appended to the registry,
as is a global other-zone bucket (registry length 3). -/
theorem C6_bucket_emitted_for_empty_partition :
    ((buildResolvedRows 1 framesResolvedClientB).all
      (fun r => r.final_tab_number != 0 &&
        r.periods.all (fun p => !(_is_excluded_tab_number p.tab_number)))) =
      true ∧
    ((create_clients_base 2 1 emptyDir framesResolvedClientB).getD 1
      defaultClientRow).final_tab_number = 90000000 ∧
    ((create_clients_base 2 1 emptyDir framesResolvedClientB).getD 1
      defaultClientRow).client_key = "special_90000000" ∧
    (create_clients_base 2 1 emptyDir framesResolvedClientB).length = 3 := by
  decide

/-! ## Claim C8 -/

/-- Appending an optional bucket entry never shortens the registry. -/
theorem length_appendEntry (rows : List ClientRow) (e : Option ClientRow) :
    rows.length ≤ (appendEntry rows e).length := by
  cases e <;> simp [appendEntry]

/-- Folding bucket appends over a group list never shortens the
registry. -/
theorem length_foldl_appendEntry {γ : Type} (ent : γ → Option ClientRow)
    (l : List γ) :
    ∀ rows : List ClientRow,
      rows.length ≤
        (l.foldl (fun acc x => appendEntry acc (ent x)) rows).length := by
  induction l with
  | nil => intro rows; exact le_refl _
  | cons x l ih =>
      intro rows
      exact le_trans (length_appendEntry rows (ent x)) (ih _)

/-- Grey-zone processing never shortens the registry. -/
theorem length_process_grey (file_count : Nat) (dir : CodeDirectory)
    (rows : List ClientRow) (tbg : List (Nat × List ClientRow))
    (gg : List ((Nat × Nat) × List ClientRow)) :
    rows.length ≤ (_process_grey_zone file_count dir rows tbg gg).length := by
  unfold _process_grey_zone
  exact le_trans (length_appendEntry _ _)
    (le_trans (length_foldl_appendEntry _ tbg _)
      (length_foldl_appendEntry _ gg _))

/-- Other-zone processing never shortens the registry. -/
theorem length_process_other (file_count : Nat) (dir : CodeDirectory)
    (rows : List ClientRow) (tbg : List (Nat × List ClientRow))
    (gg : List ((Nat × Nat) × List ClientRow)) :
    rows.length ≤ (_process_other_zone file_count dir rows tbg gg).length := by
  unfold _process_other_zone
  exact le_trans (length_appendEntry _ _)
    (le_trans (length_foldl_appendEntry _ tbg _)
      (length_foldl_appendEntry _ gg _))

/-- A four-period input (unsupported period count). -/
def framesFourPeriods : List (List RawRecord) :=
  [[⟨"C", 11, "f", "T", "G", "n", 1⟩], [⟨"C", 11, "f", "T", "G", "n", 2⟩],
   [⟨"C", 11, "f", "T", "G", "n", 3⟩], [⟨"C", 11, "f", "T", "G", "n", 4⟩]]

/-- C8 counterexample: with period count 4 the registry builder raises
no configuration error — it completes normally and produces a registry
(the client row plus the two global special-zone buckets); the
configuration error only arises later, in the growth calculator. -/
theorem C8_builder_raises_no_error_counterexample :
    (create_clients_base 4 1 emptyDir framesFourPeriods).length = 3 ∧
    ((create_clients_base 4 1 emptyDir framesFourPeriods).getD 0
      defaultClientRow).final_tab_number = 11 ∧
    (calculate_growth 4
      (create_clients_base 4 1 emptyDir framesFourPeriods)).isOk = false := by
  decide

/-- C8 (amended): the registry builder itself never raises — for any
period count it completes and produces at least one registry row per
client aggregation key (and it has no side effect, being a pure
function of its inputs); the configuration error for a period count
other than 2 or 3 is raised by the growth calculator. -/
theorem C8_config_error_in_growth_calculator (file_count mode : Nat)
    (dir : CodeDirectory) (frames : List (List RawRecord))
    (rows : List ClientRow) (h2 : file_count ≠ 2) (h3 : file_count ≠ 3) :
    (clientKeys mode frames).length ≤
      (create_clients_base file_count mode dir frames).length ∧
    (calculate_growth file_count rows).isOk = false := by
  constructor
  · unfold create_clients_base
    rw [List.length_map]
    have h1 : (buildResolvedRows mode frames).length =
        (clientKeys mode frames).length := by
      unfold buildResolvedRows
      rw [List.length_map]
    show (clientKeys mode frames).length ≤
      (_process_other_zone file_count dir
        (_process_grey_zone file_count dir (buildResolvedRows mode frames)
          (buildGroups dir (buildResolvedRows mode frames)).1
          (buildGroups dir (buildResolvedRows mode frames)).2)
        (buildGroups dir (buildResolvedRows mode frames)).1
        (buildGroups dir (buildResolvedRows mode frames)).2).length
    exact le_trans (le_of_eq h1.symm)
      (le_trans (length_process_grey _ _ _ _ _) (length_process_other _ _ _ _ _))
  · simp [calculate_growth, h2, h3, Except.isOk, Except.toBool]

/-- C8 witness: the amended theorem applied at period count 4. -/
theorem C8_config_error_in_growth_calculator_witness :
    (clientKeys 1 framesFourPeriods).length ≤
      (create_clients_base 4 1 emptyDir framesFourPeriods).length ∧
    (calculate_growth 4 ([] : List ClientRow)).isOk = false :=
  C8_config_error_in_growth_calculator 4 1 emptyDir framesFourPeriods []
    (by decide) (by decide)

/-! ## Claim C9 -/

/-- The scenario input: client C2 assigned to manager 11 (value 50) in
period 1 and manager 22 (value 70) in period 2, granularity 1. -/
def framesManagerChange : List (List RawRecord) :=
  [[⟨"C2", 11, "M1", "T", "G", "n", 50⟩],
   [⟨"C2", 22, "M2", "T", "G", "n", 70⟩]]

/-- C9 counterexample: on the scenario input the resolved final manager
is indeed manager 22 (the higher-value assignment), but the computed
growth is not 20 — period 1 is the most recent period, so the growth
formula gives `50 - 70 = -20`. -/
theorem C9_scenario_growth_counterexample :
    ((((calculate_growth 2
        (create_clients_base 2 1 emptyDir framesManagerChange)).toOption.getD
        []).getD 0 defaultClientRow).client_key = "C2") ∧
    ((((calculate_growth 2
        (create_clients_base 2 1 emptyDir framesManagerChange)).toOption.getD
        []).getD 0 defaultClientRow).final_tab_number = 22) ∧
    ¬ ((((calculate_growth 2
        (create_clients_base 2 1 emptyDir framesManagerChange)).toOption.getD
        []).getD 0 defaultClientRow).growth = 20) := by decide

/-- C9 (amended): on the scenario input the final manager is manager 22
and the computed growth is `v1 - v2 = 50 - 70 = -20`. -/
theorem C9_manager_change_scenario :
    ((((calculate_growth 2
        (create_clients_base 2 1 emptyDir framesManagerChange)).toOption.getD
        []).getD 0 defaultClientRow).final_tab_number = 22) ∧
    ((((calculate_growth 2
        (create_clients_base 2 1 emptyDir framesManagerChange)).toOption.getD
        []).getD 0 defaultClientRow).growth = -20) := by decide

end PeriodCompare
